import Mathlib

/-!
Shallow embedding of the compliance engine of the vertical-saas-framework
repository (src/server/services/compliance.ts, with the authorization wrapper
from src/server/routers/compliance.ts), together with theorems settling the
frozen claims about it.

Modelling conventions:
* JavaScript `Date` values flowing through the service as timestamps are
  modelled as `Nat` milliseconds since the epoch; calendar-level operations
  (`setMonth`, `setFullYear`, `setDate`, `getFullYear`) are modelled on a
  year/month/day triple with JavaScript's 0-indexed months and its
  day-overflow rollover semantics.
* Database rows are Lean structures, tables are lists of rows; a drizzle
  `update ... where eq(id, x)` is a `List.map` that rewrites the matching rows.
* `nanoid()` is modelled as a supply of fresh identifiers indexed by creation
  order (`idGen : Nat → String`); no claim depends on the generated values.
* `Math.round((completed / total) * 100)` is modelled as exact half-up
  rounding of the rational `100 * completed / total`, i.e. as
  `(200 * completed + total) / (2 * total)` in natural-number division.
-/

namespace Compliance

/-- Status enum of a tenant-compliance tracking record
(drizzle/schema.ts, `mysqlEnum "status"`). -/
inductive Status where
  | not_started
  | in_progress
  | completed
  | skipped
deriving DecidableEq

/-- Attachment entry stored in the `attachments` JSON column. -/
structure Attachment where
  name : String
  url : String
  uploadedAt : String
deriving DecidableEq

/-- A row of the `tenant_compliance` table (drizzle/schema.ts). -/
structure TrackingRecord where
  id : String
  tenantId : String
  checklistId : String
  itemId : String
  status : Status
  completedAt : Option Nat
  completedBy : Option String
  notes : Option String
  attachments : Option (List Attachment)
  nextDueDate : Option Nat
  reminderSent : Bool
  createdAt : Nat
  updatedAt : Nat
deriving DecidableEq

/-- The `ComplianceStats` interface of compliance.ts. -/
structure ComplianceStats where
  total : Nat
  completed : Nat
  inProgress : Nat
  notStarted : Nat
  overdue : Nat
  completionRate : Nat
deriving DecidableEq

/-- The overdue filter of `getComplianceStats` (compliance.ts lines 202-207):
non-null `nextDueDate` strictly before `now`, status neither completed nor
skipped. -/
def isOverdue (now : Nat) (r : TrackingRecord) : Bool :=
  match r.nextDueDate with
  | none => false
  | some d =>
      decide (d < now) && !(r.status == Status.completed) && !(r.status == Status.skipped)

/-- `getComplianceStats` (compliance.ts lines 190-216), over the list of
records fetched for the tenant.  `completionRate` is
`Math.round((completed / total) * 100)` guarded by `total > 0`, modelled as
exact half-up rounding `(200 * completed + total) / (2 * total)`. -/
def getComplianceStats (items : List TrackingRecord) (now : Nat) : ComplianceStats :=
  let total := items.length
  let completed := (items.filter (fun i => i.status == Status.completed)).length
  let inProgress := (items.filter (fun i => i.status == Status.in_progress)).length
  let notStarted := (items.filter (fun i => i.status == Status.not_started)).length
  let overdue := (items.filter (isOverdue now)).length
  { total := total
    completed := completed
    inProgress := inProgress
    notStarted := notStarted
    overdue := overdue
    completionRate := if 0 < total then (200 * completed + total) / (2 * total) else 0 }

/-- A concrete record with status `skipped` (all other fields inert). -/
def skippedRecord : TrackingRecord :=
  { id := "r1", tenantId := "t1", checklistId := "c1", itemId := "i1"
    status := Status.skipped, completedAt := none, completedBy := none
    notes := none, attachments := none, nextDueDate := none
    reminderSent := false, createdAt := 0, updatedAt := 0 }

/-- Recurrence frequency of a checklist item (drizzle/schema.ts). -/
inductive Frequency where
  | once
  | monthly
  | quarterly
  | annually
deriving DecidableEq

/-- A checklist item nested in a template's `sections` JSON
(drizzle/schema.ts).  The optional literal `dueDate` string is modelled
already parsed to an epoch-millisecond timestamp, mirroring
`new Date(item.dueDate)` in compliance.ts line 112. -/
structure Item where
  id : String
  label : String
  details : String
  link : Option String
  note : Option String
  frequency : Option Frequency
  dueDate : Option Nat
deriving DecidableEq

/-- A section of a checklist template (drizzle/schema.ts). -/
structure ChecklistSection where
  id : String
  title : String
  description : String
  items : List Item
deriving DecidableEq

/-- A row of the `compliance_checklists` table (drizzle/schema.ts); the
free-form `metadata` JSON column carries no behaviour and is omitted. -/
structure Checklist where
  id : String
  title : String
  version : String
  region : Option String
  businessType : Option String
  sections : List ChecklistSection
  isActive : Bool
  createdAt : Nat
  updatedAt : Nat
deriving DecidableEq

/-- The tracking record built for one item by `initializeTenantCompliance`
(compliance.ts lines 102-116). -/
def initRecord (tenantId checklistId : String) (item : Item) (rid : String)
    (now : Nat) : TrackingRecord :=
  { id := rid, tenantId := tenantId, checklistId := checklistId
    itemId := item.id, status := Status.not_started
    notes := none, attachments := none, completedAt := none, completedBy := none
    nextDueDate := item.dueDate, reminderSent := false
    createdAt := now, updatedAt := now }

/-- The records created by the section/item double loop of
`initializeTenantCompliance` (compliance.ts lines 100-119), with the fresh
`nanoid()` of the k-th created record modelled as `idGen k`. -/
def initRecords (tenantId checklistId : String) (idGen : Nat → String)
    (now : Nat) : Nat → List Item → List TrackingRecord
  | _, [] => []
  | k, item :: rest =>
      initRecord tenantId checklistId item (idGen k) now
        :: initRecords tenantId checklistId idGen now (k + 1) rest

/-- `initializeTenantCompliance` (compliance.ts lines 78-124): look the
checklist up by id (`.limit(1)` keeps the first match), fail when absent,
otherwise create one record per item of every section. -/
def initializeTenantCompliance (db : List Checklist) (tenantId checklistId : String)
    (idGen : Nat → String) (now : Nat) : Except String (List TrackingRecord) :=
  match db.find? (fun c => c.id == checklistId) with
  | none => Except.error "Checklist not found"
  | some checklist =>
      Except.ok (initRecords tenantId checklistId idGen now 0
        (checklist.sections.flatMap ChecklistSection.items))

/-- Arguments of one `updateComplianceStatus` call (compliance.ts lines
153-159): the new status, the acting user, the optional notes and
attachments (`none` models an omitted TypeScript argument), and the
timestamp taken by `new Date()` during the call. -/
structure UpdateArgs where
  status : Status
  userId : String
  notes : Option String
  attachments : Option (List Attachment)
  now : Nat
deriving DecidableEq

/-- Effect of `updateComplianceStatus` on the matching row (compliance.ts
lines 163-183): status and updatedAt always change; completedAt/completedBy
are stamped exactly when the new status is `completed`; notes and
attachments are written only when provided. -/
def applyUpdate (r : TrackingRecord) (a : UpdateArgs) : TrackingRecord :=
  { r with
    status := a.status
    updatedAt := a.now
    completedAt := if a.status == Status.completed then some a.now else r.completedAt
    completedBy := if a.status == Status.completed then some a.userId else r.completedBy
    notes := match a.notes with | none => r.notes | some s => some s
    attachments := match a.attachments with | none => r.attachments | some l => some l }

/-- The `tenant_compliance` table as a store. -/
structure Store where
  records : List TrackingRecord
deriving DecidableEq

/-- `updateComplianceStatus` at store level (compliance.ts lines 181-184):
`update ... set ... where eq(tenantCompliance.id, complianceId)` rewrites
every row whose id matches; no tenant condition appears in the WHERE
clause. -/
def updateComplianceStatus (s : Store) (complianceId : String) (a : UpdateArgs) : Store :=
  ⟨s.records.map (fun r => if r.id == complianceId then applyUpdate r a else r)⟩

/-- The `updateStatus` procedure of the compliance router
(routers/compliance.ts lines 121-153): `getTenantForUser` is modelled as
membership of `(userId, tenantId)` in the user-tenant relation; on success
the service is called with the record id only. -/
def routerUpdateStatus (memberships : List (String × String))
    (userId tenantId : String) (s : Store) (complianceId : String)
    (a : UpdateArgs) : Except String Store :=
  if memberships.contains (userId, tenantId) then
    Except.ok (updateComplianceStatus s complianceId a)
  else
    Except.error "Unauthorized"

/-- The tracking-record states reachable through this core: a freshly
initialized record, followed by any sequence of status updates. -/
inductive ReachableRecord : TrackingRecord → Prop where
  | init (tenantId checklistId : String) (item : Item) (rid : String) (now : Nat) :
      ReachableRecord (initRecord tenantId checklistId item rid now)
  | step (r : TrackingRecord) (a : UpdateArgs) :
      ReachableRecord r → ReachableRecord (applyUpdate r a)

/-- A concrete checklist item with no due date. -/
def itemA : Item :=
  { id := "i1", label := "label", details := "details"
    link := none, note := none, frequency := none, dueDate := none }

/-- A freshly initialized record for `itemA`. -/
def recInit : TrackingRecord := initRecord "t1" "c1" itemA "r1" 0

/-- Arguments completing a record at time 1. -/
def argsComplete : UpdateArgs :=
  { status := Status.completed, userId := "u1", notes := none
    attachments := none, now := 1 }

/-- Arguments reopening a record (back to not_started) at time 2. -/
def argsReopen : UpdateArgs :=
  { status := Status.not_started, userId := "u1", notes := none
    attachments := none, now := 2 }

/-- A tracking record owned by tenant "tenantC". -/
def recOtherTenant : TrackingRecord :=
  { skippedRecord with id := "rec1", tenantId := "tenantC", status := Status.not_started }

/-- A concrete two-section checklist with three items. -/
def sampleChecklist : Checklist :=
  { id := "chk1", title := "title", version := "1"
    region := none, businessType := none
    sections :=
      [{ id := "s1", title := "s1", description := "d1"
         items := [{ itemA with id := "a1", dueDate := some 1000 },
                   { itemA with id := "a2" }] },
       { id := "s2", title := "s2", description := "d2"
         items := [{ itemA with id := "b1" }] }]
    isActive := true, createdAt := 0, updatedAt := 0 }

/-- Input of `upsertComplianceChecklist` (compliance.ts line 31):
an `InsertComplianceChecklist` without id/createdAt/updatedAt. -/
structure ChecklistInput where
  title : String
  version : String
  region : Option String
  businessType : Option String
  sections : List ChecklistSection
  isActive : Bool
deriving DecidableEq

/-- `upsertComplianceChecklist` (compliance.ts lines 30-45): generate a fresh
id, insert a new row built from the input, return the id.  The function
performs no validation of any kind. -/
def upsertComplianceChecklist (db : List Checklist) (data : ChecklistInput)
    (newId : String) (now : Nat) : List Checklist × String :=
  (db ++ [{ id := newId, title := data.title, version := data.version
            region := data.region, businessType := data.businessType
            sections := data.sections, isActive := data.isActive
            createdAt := now, updatedAt := now }], newId)

/-- All item ids of a template definition, across sections. -/
def templateItemIds (sections : List ChecklistSection) : List String :=
  (sections.flatMap ChecklistSection.items).map Item.id

/-- Stated in the words of the spec, for comparison with the code: two items
within the same template definition share an id. -/
def specHasDuplicateItemIds (sections : List ChecklistSection) : Bool :=
  !(decide (templateItemIds sections).Nodup)

/-- A template definition whose single section holds two items with the same
id "dup". -/
def dupInput : ChecklistInput :=
  { title := "t", version := "1", region := none, businessType := none
    sections := [{ id := "s1", title := "s1", description := "d"
                   items := [{ itemA with id := "dup" }, { itemA with id := "dup" }] }]
    isActive := true }

/-- Reminder delivery channel (drizzle/schema.ts `mysqlEnum "reminderType"`). -/
inductive ReminderType where
  | email
  | notification
  | sms
deriving DecidableEq

/-- A row of the `compliance_reminders` table (drizzle/schema.ts); the
free-form `metadata` JSON column carries no behaviour and is omitted. -/
structure Reminder where
  id : String
  tenantId : String
  complianceId : String
  reminderType : ReminderType
  scheduledFor : Nat
  sent : Bool
  sentAt : Option Nat
  message : String
  createdAt : Nat
deriving DecidableEq

/-- `markReminderSent` (compliance.ts lines 276-287):
`update ... set sent = true, sentAt = new Date() where eq(id, reminderId)`,
unconditionally. -/
def markReminderSent (reminders : List Reminder) (reminderId : String)
    (now : Nat) : List Reminder :=
  reminders.map (fun r =>
    if r.id == reminderId then { r with sent := true, sentAt := some now } else r)

/-- A concrete unsent reminder. -/
def remPending : Reminder :=
  { id := "m1", tenantId := "t1", complianceId := "r1"
    reminderType := ReminderType.email, scheduledFor := 10
    sent := false, sentAt := none, message := "msg", createdAt := 0 }

/-- A calendar date with JavaScript's 0-indexed month (0 = January),
modelling a local-time `Date` at day precision. -/
structure SimpleDate where
  year : Nat
  month : Nat
  day : Nat
deriving DecidableEq

/-- Strict comparison of two dates, modelling `dateA > dateB` on JavaScript
`Date` values (valid dates compare chronologically). -/
def dateLtB (a b : SimpleDate) : Bool :=
  decide (a.year < b.year)
    || (a.year == b.year
        && (decide (a.month < b.month)
            || (a.month == b.month && decide (a.day < b.day))))

/-- Gregorian leap-year rule, as implemented by JavaScript `Date`. -/
def isLeapYear (y : Nat) : Bool :=
  (y % 4 == 0 && !(y % 100 == 0)) || y % 400 == 0

/-- Days in month `m` (0-indexed) of year `y`. -/
def daysInMonth (y m : Nat) : Nat :=
  if m == 1 then (if isLeapYear y then 29 else 28)
  else if m == 3 || m == 5 || m == 8 || m == 10 then 30
  else 31

/-- JavaScript `Date` day-overflow normalization: a day-of-month beyond the
end of the month rolls into the following month (a single borrow suffices
for every day value a `Date` can hold, since `day ≤ 31` and every month has
at least 28 days). -/
def fixDay (y m d : Nat) : SimpleDate :=
  if d ≤ daysInMonth y m then ⟨y, m, d⟩
  else if m == 11 then ⟨y + 1, 0, d - daysInMonth y m⟩
  else ⟨y, m + 1, d - daysInMonth y m⟩

/-- JavaScript `d.setMonth(m)`: month overflow wraps into the year, the day
of month is kept and rolls over when it exceeds the target month. -/
def setMonth (dt : SimpleDate) (m : Nat) : SimpleDate :=
  fixDay (dt.year + m / 12) (m % 12) dt.day

/-- JavaScript `d.setFullYear(y)`: the month and day are kept, the day
rolling over when invalid in the target year (Feb 29 → Mar 1). -/
def setFullYear (dt : SimpleDate) (y : Nat) : SimpleDate :=
  fixDay y dt.month dt.day

/-- JavaScript `d.setDate(d.getDate() - 7)` (compliance.ts line 346): a
non-positive day borrows from the previous month. -/
def setDateSub7 (d : SimpleDate) : SimpleDate :=
  if 7 < d.day then ⟨d.year, d.month, d.day - 7⟩
  else if d.month == 0 then ⟨d.year - 1, 11, daysInMonth (d.year - 1) 11 + d.day - 7⟩
  else ⟨d.year, d.month - 1, daysInMonth d.year (d.month - 1) + d.day - 7⟩

/-- "Advance by `n` calendar months under the date library's month-rollover
convention": stated in the words of the spec, for comparison with the code's
`setMonth`/`setFullYear` increments. -/
def addMonths (n : Nat) (dt : SimpleDate) : SimpleDate :=
  fixDay (dt.year + (dt.month + n) / 12) ((dt.month + n) % 12) dt.day

/-- `calculateNextDueDate` (compliance.ts lines 363-387): null for `once`;
otherwise the last due date (or `now` when absent) advanced via
`setMonth(+1)`, `setMonth(+3)` or `setFullYear(+1)`. -/
def calculateNextDueDate (frequency : Frequency) (lastDueDate : Option SimpleDate)
    (now : SimpleDate) : Option SimpleDate :=
  match frequency with
  | Frequency.once => none
  | Frequency.monthly =>
      let b := lastDueDate.getD now
      some (setMonth b (b.month + 1))
  | Frequency.quarterly =>
      let b := lastDueDate.getD now
      some (setMonth b (b.month + 3))
  | Frequency.annually =>
      let b := lastDueDate.getD now
      some (setFullYear b (b.year + 1))

/-- A reminder scheduled by the quarterly-tax routine.  The row written by
`scheduleReminder` (compliance.ts lines 233-244) carries the message string
and a `metadata` object naming the quarter and the deadline's ISO date; the
locale-dependent rendering of `toLocaleDateString()` is modelled by the
quarter name and due date the message is built from. -/
structure QuarterReminder where
  tenantId : String
  complianceId : String
  reminderType : ReminderType
  scheduledFor : SimpleDate
  quarterName : String
  dueDate : SimpleDate
  sent : Bool
  sentAt : Option Nat
deriving DecidableEq

/-- The four fixed IRS deadlines computed by `scheduleQuarterlyTaxReminders`
(compliance.ts lines 333-338): April 15, June 15, September 15 of the
current year and January 15 of the next (months 0-indexed). -/
def quarterlyDeadlines (currentYear : Nat) : List (SimpleDate × String) :=
  [(⟨currentYear, 3, 15⟩, "Q1"), (⟨currentYear, 5, 15⟩, "Q2"),
   (⟨currentYear, 8, 15⟩, "Q3"), (⟨currentYear + 1, 0, 15⟩, "Q4")]

/-- `scheduleQuarterlyTaxReminders` (compliance.ts lines 328-358): keep the
deadlines strictly after `now` and schedule one email reminder per kept
deadline, dated 7 days earlier. -/
def scheduleQuarterlyTaxReminders (tenantId complianceId : String)
    (now : SimpleDate) : List QuarterReminder :=
  ((quarterlyDeadlines now.year).filter (fun q => dateLtB now q.1)).map (fun q =>
    { tenantId := tenantId, complianceId := complianceId
      reminderType := ReminderType.email
      scheduledFor := setDateSub7 q.1, quarterName := q.2, dueDate := q.1
      sent := false, sentAt := none })

/-- The Q1 reminder produced by a call on 2025-03-01. -/
def q1Reminder : QuarterReminder :=
  { tenantId := "T1", complianceId := "R1", reminderType := ReminderType.email
    scheduledFor := ⟨2025, 3, 8⟩, quarterName := "Q1", dueDate := ⟨2025, 3, 15⟩
    sent := false, sentAt := none }

/-- Milliseconds in a day (`1000 * 60 * 60 * 24`, compliance.ts line 314). -/
def dayMs : Nat := 86400000

/-- One result entry of `getUpcomingDeadlines` (compliance.ts lines 295-298). -/
structure DeadlineEntry where
  compliance : TrackingRecord
  daysUntilDue : Nat
deriving DecidableEq

/-- The filter of `getUpcomingDeadlines` (compliance.ts lines 305-311):
non-null `nextDueDate` inside the inclusive window `[now, futureDate]`,
status neither completed nor skipped. -/
def deadlineCond (now futureDate : Nat) (r : TrackingRecord) : Bool :=
  match r.nextDueDate with
  | none => false
  | some d =>
      decide (now ≤ d) && decide (d ≤ futureDate)
        && !(r.status == Status.completed) && !(r.status == Status.skipped)

/-- The map step of `getUpcomingDeadlines` (compliance.ts lines 312-319):
`daysUntilDue = Math.ceil((dueDate - now) / dayMs)`, as exact ceiling
division on the epoch-millisecond difference (the filter guarantees
`now ≤ dueDate`). -/
def mkEntry (now : Nat) (r : TrackingRecord) : DeadlineEntry :=
  { compliance := r
    daysUntilDue := (r.nextDueDate.getD now - now + (dayMs - 1)) / dayMs }

/-- The sort order of `getUpcomingDeadlines` (compliance.ts line 320):
comparator `(a, b) => a.daysUntilDue - b.daysUntilDue`, i.e. ascending
`daysUntilDue`. -/
def entryLE (a b : DeadlineEntry) : Prop := a.daysUntilDue ≤ b.daysUntilDue

instance : DecidableRel entryLE :=
  fun a b => Nat.decLe a.daysUntilDue b.daysUntilDue

instance : IsTotal DeadlineEntry entryLE :=
  ⟨fun a b => Nat.le_total a.daysUntilDue b.daysUntilDue⟩

instance : IsTrans DeadlineEntry entryLE :=
  ⟨fun _ _ _ => Nat.le_trans⟩

/-- `getUpcomingDeadlines` (compliance.ts lines 292-323): filter, map, then
sort ascending by `daysUntilDue`.  `futureDate` is `now` advanced by
`daysAhead` days; ECMAScript specifies `Array.prototype.sort` to be stable,
and a stable ascending sort is exactly `List.insertionSort` under `entryLE`
(each element is inserted before the later-input elements of equal key). -/
def getUpcomingDeadlines (records : List TrackingRecord) (now daysAhead : Nat) :
    List DeadlineEntry :=
  List.insertionSort entryLE
    ((records.filter (deadlineCond now (now + daysAhead * dayMs))).map (mkEntry now))

/-- A concrete record due two days after epoch. -/
def recDueSoon : TrackingRecord :=
  { skippedRecord with
    id := "due1"
    status := Status.not_started
    nextDueDate := some (2 * dayMs) }

end Compliance

namespace Compliance

/-- The four status-filter counts partition the record list. -/
theorem status_filter_partition (items : List Compliance.TrackingRecord) :
    (items.filter (fun i => i.status == Status.completed)).length
      + (items.filter (fun i => i.status == Status.in_progress)).length
      + (items.filter (fun i => i.status == Status.not_started)).length
      + (items.filter (fun i => i.status == Status.skipped)).length
      = items.length := by
  induction items with
  | nil => rfl
  | cons r rest ih =>
      cases h : r.status <;>
        simp +decide [List.filter_cons, h, List.length_cons] <;> omega

/-- Claim C1, counterexample: on a list holding a single `skipped` record the
claimed identity `completed + inProgress + notStarted = total` fails
(the left side is 0, the total is 1). -/
theorem c1_counterexample :
    (getComplianceStats [skippedRecord] 0).completed
      + (getComplianceStats [skippedRecord] 0).inProgress
      + (getComplianceStats [skippedRecord] 0).notStarted
      ≠ (getComplianceStats [skippedRecord] 0).total := by
  decide

/-- Claim C1 (amended): for every record list the counts satisfy
`completed + inProgress + notStarted + skipped = total` (the original
three-way identity holds only in the absence of `skipped` records), and
`completionRate` lies in [0, 100] and equals 0 when `total = 0`. -/
theorem c1_stats_partition (items : List TrackingRecord) (now : Nat) :
    (getComplianceStats items now).completed
        + (getComplianceStats items now).inProgress
        + (getComplianceStats items now).notStarted
        + (items.filter (fun i => i.status == Status.skipped)).length
      = (getComplianceStats items now).total
    ∧ (getComplianceStats items now).completionRate ≤ 100
    ∧ ((getComplianceStats items now).total = 0 →
        (getComplianceStats items now).completionRate = 0) := by
  refine ⟨status_filter_partition items, ?_, ?_⟩
  · show (if 0 < items.length then _ else 0) ≤ 100
    by_cases h : 0 < items.length
    · have hc : (items.filter (fun i => i.status == Status.completed)).length
          ≤ items.length := List.length_filter_le _ _
      rw [if_pos h]
      have h2 : 0 < 2 * items.length := by omega
      have := (Nat.div_lt_iff_lt_mul h2).mpr
        (show 200 * (items.filter (fun i => i.status == Status.completed)).length
            + items.length < 101 * (2 * items.length) by omega)
      omega
    · rw [if_neg h]
      omega
  · intro htot
    have hlen : items.length = 0 := htot
    show (if 0 < items.length then _ else 0) = 0
    rw [if_neg (by omega)]

/-- Claim C1 witness: the amended theorem applied at the empty list (zero
total gives rate 0) and at the singleton skipped list (rate bounded). -/
theorem c1_witness :
    (getComplianceStats [] 0).completionRate = 0
    ∧ (getComplianceStats [skippedRecord] 0).completionRate ≤ 100 :=
  ⟨(c1_stats_partition [] 0).2.2 rfl, (c1_stats_partition [skippedRecord] 0).2.1⟩

/-- Claim C2, counterexample: initialize, complete at time 1, reopen at time
2.  The resulting reachable record has status `not_started` but still carries
`completedAt = some 1` and `completedBy = some "u1"`, so the claimed "iff"
invariant fails on a reachable state. -/
theorem c2_counterexample :
    ¬ (∀ r : TrackingRecord, ReachableRecord r →
        ((r.completedAt ≠ none ∧ r.completedBy ≠ none) ↔ r.status = Status.completed)) := by
  intro h
  have hr : ReachableRecord (applyUpdate (applyUpdate recInit argsComplete) argsReopen) :=
    ReachableRecord.step _ argsReopen
      (ReachableRecord.step _ argsComplete
        (ReachableRecord.init "t1" "c1" itemA "r1" 0))
  have hst := (h _ hr).mp ⟨by decide, by decide⟩
  exact absurd hst (by decide)

/-- Claim C2 (amended): on every reachable tracking-record state, status
`completed` implies that `completedAt` and `completedBy` are non-null.  The
converse direction of the claimed iff fails, because transitioning away from
`completed` does not clear the two stamps. -/
theorem c2_completed_implies_stamps (r : TrackingRecord) (h : ReachableRecord r) :
    r.status = Status.completed → r.completedAt ≠ none ∧ r.completedBy ≠ none := by
  induction h with
  | init tenantId checklistId item rid now =>
      intro hst
      simp [initRecord] at hst
  | step r a hr ih =>
      intro hst
      by_cases hc : a.status = Status.completed
      · simp [applyUpdate, hc]
      · have : a.status = Status.completed := by
          simpa [applyUpdate] using hst
        exact absurd this hc

/-- Claim C2 witness: the amended theorem applied to the concrete record
obtained by completing a fresh record at time 1. -/
theorem c2_witness :
    (applyUpdate recInit argsComplete).completedAt ≠ none
    ∧ (applyUpdate recInit argsComplete).completedBy ≠ none :=
  c2_completed_implies_stamps _
    (ReachableRecord.step _ argsComplete (ReachableRecord.init "t1" "c1" itemA "r1" 0))
    (by decide)

/-- Claim C9: partial-update semantics of the status update.  Status and
updatedAt always change; notes and attachments are overwritten exactly when
provided and untouched when omitted; the completion stamps change exactly on
a call whose new status is `completed`; every other field of the record, and
every record whose id differs from the targeted one, is left unchanged. -/
theorem c9_partial_update_frame (r : TrackingRecord) (a : UpdateArgs) :
    (applyUpdate r a).status = a.status
    ∧ (applyUpdate r a).updatedAt = a.now
    ∧ (a.notes = none → (applyUpdate r a).notes = r.notes)
    ∧ (∀ s, a.notes = some s → (applyUpdate r a).notes = some s)
    ∧ (a.attachments = none → (applyUpdate r a).attachments = r.attachments)
    ∧ (∀ l, a.attachments = some l → (applyUpdate r a).attachments = some l)
    ∧ (a.status = Status.completed →
        (applyUpdate r a).completedAt = some a.now
          ∧ (applyUpdate r a).completedBy = some a.userId)
    ∧ (a.status ≠ Status.completed →
        (applyUpdate r a).completedAt = r.completedAt
          ∧ (applyUpdate r a).completedBy = r.completedBy)
    ∧ (applyUpdate r a).id = r.id
    ∧ (applyUpdate r a).tenantId = r.tenantId
    ∧ (applyUpdate r a).checklistId = r.checklistId
    ∧ (applyUpdate r a).itemId = r.itemId
    ∧ (applyUpdate r a).nextDueDate = r.nextDueDate
    ∧ (applyUpdate r a).reminderSent = r.reminderSent
    ∧ (applyUpdate r a).createdAt = r.createdAt
    ∧ (∀ s : Store, ∀ cid : String, ∀ q ∈ s.records, q.id ≠ cid →
        q ∈ (updateComplianceStatus s cid a).records) := by
  refine ⟨rfl, rfl, ?_, ?_, ?_, ?_, ?_, ?_, rfl, rfl, rfl, rfl, rfl, rfl, rfl, ?_⟩
  · intro h
    simp [applyUpdate, h]
  · intro s h
    simp [applyUpdate, h]
  · intro h
    simp [applyUpdate, h]
  · intro l h
    simp [applyUpdate, h]
  · intro h
    simp [applyUpdate, h]
  · intro h
    simp [applyUpdate, h]
  · intro s cid q hq hne
    have : (if q.id == cid then applyUpdate q a else q) = q := by
      simp [hne]
    exact this ▸ List.mem_map_of_mem _ hq

/-- Claim C9 witness: the frame theorem applied at the concrete reopening
update (notes and attachments omitted, new status not `completed`). -/
theorem c9_witness :
    (applyUpdate recInit argsReopen).notes = recInit.notes
    ∧ (applyUpdate recInit argsReopen).completedAt = recInit.completedAt
    ∧ recInit ∈ (updateComplianceStatus ⟨[recInit]⟩ "other" argsReopen).records :=
  ⟨(c9_partial_update_frame recInit argsReopen).2.2.1 rfl,
   ((c9_partial_update_frame recInit argsReopen).2.2.2.2.2.2.2.1 (by decide)).1,
   (c9_partial_update_frame recInit argsReopen).2.2.2.2.2.2.2.2.2.2.2.2.2.2.2
     ⟨[recInit]⟩ "other" recInit (by simp) (by decide)⟩

/-- Claim C6: the status-update operation selects the mutated rows solely by
record id.  Two authorized runs that differ only in the tenant the caller was
authorized against produce identical stores, every authorized run reduces to
the tenant-blind service call, and a row whose id matches is rewritten no
matter which tenant owns it. -/
theorem c6_tenant_blind_update (memberships : List (String × String))
    (userId tenant1 tenant2 : String) (s : Store) (complianceId : String)
    (a : UpdateArgs)
    (h1 : memberships.contains (userId, tenant1) = true)
    (h2 : memberships.contains (userId, tenant2) = true) :
    routerUpdateStatus memberships userId tenant1 s complianceId a
      = routerUpdateStatus memberships userId tenant2 s complianceId a
    ∧ routerUpdateStatus memberships userId tenant1 s complianceId a
      = Except.ok (updateComplianceStatus s complianceId a)
    ∧ (∀ r ∈ s.records, r.id = complianceId →
        applyUpdate r a ∈ (updateComplianceStatus s complianceId a).records) := by
  have m1 : (userId, tenant1) ∈ memberships := by simpa using h1
  have m2 : (userId, tenant2) ∈ memberships := by simpa using h2
  refine ⟨?_, ?_, ?_⟩
  · simp [routerUpdateStatus, m1, m2]
  · simp [routerUpdateStatus, m1]
  · intro r hr hid
    have : (if r.id == complianceId then applyUpdate r a else r) = applyUpdate r a := by
      simp [hid]
    exact this ▸ List.mem_map_of_mem _ hr

/-- Claim C6 witness: a user authorized for "tenantA" and "tenantB" updates a
record owned by "tenantC"; both authorized runs coincide and the foreign
record is rewritten. -/
theorem c6_witness :
    routerUpdateStatus [("u", "tenantA"), ("u", "tenantB")] "u" "tenantA"
        ⟨[recOtherTenant]⟩ "rec1" argsComplete
      = routerUpdateStatus [("u", "tenantA"), ("u", "tenantB")] "u" "tenantB"
        ⟨[recOtherTenant]⟩ "rec1" argsComplete
    ∧ applyUpdate recOtherTenant argsComplete
      ∈ (updateComplianceStatus ⟨[recOtherTenant]⟩ "rec1" argsComplete).records :=
  ⟨(c6_tenant_blind_update [("u", "tenantA"), ("u", "tenantB")] "u" "tenantA" "tenantB"
      ⟨[recOtherTenant]⟩ "rec1" argsComplete (by decide) (by decide)).1,
   (c6_tenant_blind_update [("u", "tenantA"), ("u", "tenantB")] "u" "tenantA" "tenantB"
      ⟨[recOtherTenant]⟩ "rec1" argsComplete (by decide) (by decide)).2.2
     recOtherTenant (by simp) rfl⟩

/-- `initRecords` creates one record per item. -/
theorem initRecords_length (tenantId checklistId : String) (idGen : Nat → String)
    (now : Nat) : ∀ (items : List Item) (k : Nat),
    (initRecords tenantId checklistId idGen now k items).length = items.length := by
  intro items
  induction items with
  | nil => intro k; rfl
  | cons item rest ih =>
      intro k
      simp [initRecords, ih (k + 1)]

/-- The i-th record created by `initRecords` is the initialization of the
i-th item, with the (k+i)-th fresh id. -/
theorem initRecords_get (tenantId checklistId : String) (idGen : Nat → String)
    (now : Nat) : ∀ (items : List Item) (k i : Nat)
    (h : i < (initRecords tenantId checklistId idGen now k items).length)
    (h2 : i < items.length),
    (initRecords tenantId checklistId idGen now k items).get ⟨i, h⟩
      = initRecord tenantId checklistId (items.get ⟨i, h2⟩) (idGen (k + i)) now := by
  intro items
  induction items with
  | nil => intro k i h h2; exact absurd h2 (by simp)
  | cons item rest ih =>
      intro k i h h2
      cases i with
      | zero => rfl
      | succ j =>
          have hj : j < (initRecords tenantId checklistId idGen now (k + 1) rest).length := by
            simpa [initRecords] using h
          have hj2 : j < rest.length := by simpa using h2
          have := ih (k + 1) j hj hj2
          simpa [initRecords, List.get, Nat.add_assoc, Nat.add_comm 1 j] using this

/-- Claim C3: `initializeTenantCompliance` fails with the not-found error
when the checklist id does not resolve; otherwise it creates exactly one
tracking record per item across all sections, in order, each with status
`not_started`, the item's id, the item's literal due date (null when the
item has none), and null completion stamps. -/
theorem c3_initialize_tracking :
    (∀ (db : List Checklist) (tenantId checklistId : String)
        (idGen : Nat → String) (now : Nat),
      db.find? (fun c => c.id == checklistId) = none →
        initializeTenantCompliance db tenantId checklistId idGen now
          = Except.error "Checklist not found")
    ∧ (∀ (db : List Checklist) (tenantId checklistId : String)
        (idGen : Nat → String) (now : Nat) (cl : Checklist),
      db.find? (fun c => c.id == checklistId) = some cl →
        ∃ recs, initializeTenantCompliance db tenantId checklistId idGen now
            = Except.ok recs
          ∧ recs.length = (cl.sections.flatMap ChecklistSection.items).length
          ∧ ∀ (i : Nat) (h : i < recs.length)
              (h2 : i < (cl.sections.flatMap ChecklistSection.items).length),
              (recs.get ⟨i, h⟩).status = Status.not_started
              ∧ (recs.get ⟨i, h⟩).tenantId = tenantId
              ∧ (recs.get ⟨i, h⟩).checklistId = checklistId
              ∧ (recs.get ⟨i, h⟩).itemId
                  = ((cl.sections.flatMap ChecklistSection.items).get ⟨i, h2⟩).id
              ∧ (recs.get ⟨i, h⟩).nextDueDate
                  = ((cl.sections.flatMap ChecklistSection.items).get ⟨i, h2⟩).dueDate
              ∧ (recs.get ⟨i, h⟩).completedAt = none
              ∧ (recs.get ⟨i, h⟩).completedBy = none
              ∧ (recs.get ⟨i, h⟩).notes = none
              ∧ (recs.get ⟨i, h⟩).attachments = none) := by
  constructor
  · intro db tenantId checklistId idGen now hfind
    simp [initializeTenantCompliance, hfind]
  · intro db tenantId checklistId idGen now cl hfind
    refine ⟨initRecords tenantId checklistId idGen now 0
      (cl.sections.flatMap ChecklistSection.items), ?_, ?_, ?_⟩
    · simp [initializeTenantCompliance, hfind]
    · exact initRecords_length tenantId checklistId idGen now _ 0
    · intro i h h2
      rw [initRecords_get tenantId checklistId idGen now _ 0 i h h2]
      exact ⟨rfl, rfl, rfl, rfl, rfl, rfl, rfl, rfl, rfl⟩

/-- Claim C3 witness: the theorem applied at an empty database (not-found
branch) and at a database holding the concrete three-item checklist. -/
theorem c3_witness :
    initializeTenantCompliance [] "T1" "chk1" (fun _ => "id") 0
      = Except.error "Checklist not found"
    ∧ ∃ recs, initializeTenantCompliance [sampleChecklist] "T1" "chk1" (fun _ => "id") 0
        = Except.ok recs
      ∧ recs.length = (sampleChecklist.sections.flatMap ChecklistSection.items).length := by
  constructor
  · exact c3_initialize_tracking.1 [] "T1" "chk1" (fun _ => "id") 0 rfl
  · obtain ⟨recs, hok, hlen, _⟩ :=
      c3_initialize_tracking.2 [sampleChecklist] "T1" "chk1" (fun _ => "id") 0
        sampleChecklist (by decide)
    exact ⟨recs, hok, hlen⟩

/-- Claim C7, counterexample: on a definition whose items share the id "dup"
the upsert does not fail — it still inserts exactly one new row and returns
the fresh id. -/
theorem c7_counterexample :
    specHasDuplicateItemIds dupInput.sections = true
    ∧ (upsertComplianceChecklist [] dupInput "n1" 0).1.length = 1
    ∧ (upsertComplianceChecklist [] dupInput "n1" 0).2 = "n1" := by
  refine ⟨by decide, rfl, rfl⟩

/-- Claim C7 (amended): `upsertComplianceChecklist` performs no duplicate
item-id validation and never fails; for every input — including one whose
items share an id — it appends exactly one new row built from the input with
a fresh id, and returns that id (append-only, no in-place update). -/
theorem c7_append_only (db : List Checklist) (data : ChecklistInput)
    (newId : String) (now : Nat) :
    (upsertComplianceChecklist db data newId now).1
      = db ++ [{ id := newId, title := data.title, version := data.version
                 region := data.region, businessType := data.businessType
                 sections := data.sections, isActive := data.isActive
                 createdAt := now, updatedAt := now }]
    ∧ (upsertComplianceChecklist db data newId now).2 = newId
    ∧ (upsertComplianceChecklist db data newId now).1.length = db.length + 1 :=
  ⟨rfl, rfl, by simp [upsertComplianceChecklist]⟩

/-- Claim C8, counterexample: marking the same reminder sent at time 1 and
then again at time 2 is not a no-op — the second call overwrites `sentAt`
with the later time. -/
theorem c8_counterexample :
    markReminderSent (markReminderSent [remPending] "m1" 1) "m1" 2
      ≠ markReminderSent [remPending] "m1" 1 := by
  decide

/-- Claim C8 (amended): `markReminderSent` unconditionally sets `sent = true`
and `sentAt = now` on the matching reminder and leaves every other reminder
unchanged; repeating the call at the same instant is a no-op, but a second
call at a later time overwrites `sentAt` with the new time (only same-time
idempotence holds). -/
theorem c8_mark_sent (reminders : List Reminder) (reminderId : String) (now : Nat) :
    (∀ r ∈ markReminderSent reminders reminderId now,
        r.id = reminderId → r.sent = true ∧ r.sentAt = some now)
    ∧ (∀ r ∈ reminders, r.id ≠ reminderId →
        r ∈ markReminderSent reminders reminderId now)
    ∧ markReminderSent (markReminderSent reminders reminderId now) reminderId now
        = markReminderSent reminders reminderId now := by
  refine ⟨?_, ?_, ?_⟩
  · intro r hr hid
    obtain ⟨q, hq, hqr⟩ := List.mem_map.mp hr
    by_cases hc : q.id = reminderId
    · rw [← hqr]
      simp [hc]
    · rw [← hqr] at hid
      simp [hc] at hid
  · intro r hr hid
    have : (if r.id == reminderId then { r with sent := true, sentAt := some now } else r)
        = r := by
      simp [hid]
    exact this ▸ List.mem_map_of_mem _ hr
  · unfold markReminderSent
    rw [List.map_map]
    apply List.map_congr_left
    intro r _
    by_cases hc : r.id = reminderId <;> simp [hc]

/-- Claim C8 witness: the amended theorem applied to the concrete pending
reminder marked sent at time 5. -/
theorem c8_witness :
    ({ remPending with sent := true, sentAt := some 5 } : Reminder).sent = true
    ∧ ({ remPending with sent := true, sentAt := some 5 } : Reminder).sentAt = some 5 :=
  (c8_mark_sent [remPending] "m1" 5).1
    { remPending with sent := true, sentAt := some 5 } (by decide) rfl

/-- Claim C10: `calculateNextDueDate` returns null for frequency `once` on
every input; for monthly and quarterly it advances the base date by 1 and 3
calendar months via `setMonth`; and the annual case, implemented as a year
increment via `setFullYear`, agrees with adding 12 calendar months under the
same rollover convention (so Feb 29 moves to Mar 1 either way). -/
theorem c10_next_due_date (d now : SimpleDate) (hm : d.month < 12) :
    calculateNextDueDate Frequency.once (some d) now = none
    ∧ calculateNextDueDate Frequency.once none now = none
    ∧ calculateNextDueDate Frequency.monthly (some d) now = some (addMonths 1 d)
    ∧ calculateNextDueDate Frequency.quarterly (some d) now = some (addMonths 3 d)
    ∧ calculateNextDueDate Frequency.annually (some d) now = some (addMonths 12 d) := by
  refine ⟨rfl, rfl, rfl, rfl, ?_⟩
  show some (setFullYear d (d.year + 1)) = some (addMonths 12 d)
  unfold setFullYear addMonths
  rw [show (d.month + 12) / 12 = 1 by omega, show (d.month + 12) % 12 = d.month by omega]

/-- Claim C10 witness: the theorem applied at Feb 29 2024; the annual
increment equals adding 12 months, and both roll the nonexistent
Feb 29 2025 over to Mar 1 2025. -/
theorem c10_witness :
    calculateNextDueDate Frequency.annually (some ⟨2024, 1, 29⟩) ⟨2025, 0, 1⟩
      = some (addMonths 12 ⟨2024, 1, 29⟩)
    ∧ addMonths 12 (⟨2024, 1, 29⟩ : SimpleDate) = ⟨2025, 2, 1⟩ :=
  ⟨(c10_next_due_date ⟨2024, 1, 29⟩ ⟨2025, 0, 1⟩ (by decide)).2.2.2.2, by decide⟩

/-- Claim C5: every reminder scheduled by `scheduleQuarterlyTaxReminders`
is for a deadline strictly in the future, is dated 7 days before its
deadline (day 8 against day 15 of the same month), goes by email, and names
its quarter and literal due date; exactly one reminder is produced per kept
deadline, in order; and the concrete call on 2025-03-01 produces exactly 4
reminders for Q1-Q4. -/
theorem c5_quarterly_reminders :
    (∀ (t c : String) (now : SimpleDate) (rem : QuarterReminder),
        rem ∈ scheduleQuarterlyTaxReminders t c now →
          dateLtB now rem.dueDate = true
          ∧ rem.dueDate.day = 15
          ∧ rem.scheduledFor = ⟨rem.dueDate.year, rem.dueDate.month, 8⟩
          ∧ rem.reminderType = ReminderType.email
          ∧ rem.tenantId = t
          ∧ rem.complianceId = c
          ∧ rem.sent = false)
    ∧ (∀ (t c : String) (now : SimpleDate),
        (scheduleQuarterlyTaxReminders t c now).map (fun r => (r.dueDate, r.quarterName))
          = (quarterlyDeadlines now.year).filter (fun q => dateLtB now q.1))
    ∧ (scheduleQuarterlyTaxReminders "T1" "R1" ⟨2025, 2, 1⟩).length = 4
    ∧ (scheduleQuarterlyTaxReminders "T1" "R1" ⟨2025, 2, 1⟩).map
        QuarterReminder.quarterName = ["Q1", "Q2", "Q3", "Q4"]
    ∧ (scheduleQuarterlyTaxReminders "T1" "R1" ⟨2025, 2, 1⟩).map
        QuarterReminder.scheduledFor
        = [⟨2025, 3, 8⟩, ⟨2025, 5, 8⟩, ⟨2025, 8, 8⟩, ⟨2026, 0, 8⟩] := by
  refine ⟨?_, ?_, by decide, by decide, by decide⟩
  · intro t c now rem hrem
    obtain ⟨q, hq, hqrem⟩ := List.mem_map.mp hrem
    obtain ⟨hqmem, hqlt⟩ := List.mem_filter.mp hq
    subst hqrem
    have h15 : q.1.day = 15 ∧ setDateSub7 q.1 = ⟨q.1.year, q.1.month, 8⟩ := by
      simp only [quarterlyDeadlines, List.mem_cons, List.not_mem_nil, or_false] at hqmem
      rcases hqmem with h | h | h | h <;> subst h <;>
        exact ⟨rfl, by simp [setDateSub7]⟩
    exact ⟨hqlt, h15.1, h15.2, rfl, rfl, rfl, rfl⟩
  · intro t c now
    unfold scheduleQuarterlyTaxReminders
    rw [List.map_map]
    have : ((fun r : QuarterReminder => (r.dueDate, r.quarterName)) ∘ fun q : SimpleDate × String =>
        ({ tenantId := t, complianceId := c, reminderType := ReminderType.email
           scheduledFor := setDateSub7 q.1, quarterName := q.2, dueDate := q.1
           sent := false, sentAt := none } : QuarterReminder)) = fun q => q := by
      funext q
      simp [Function.comp]
    rw [this]
    simp

/-- Claim C5 witness: the theorem applied to the concrete Q1 reminder of the
2025-03-01 call. -/
theorem c5_witness :
    q1Reminder ∈ scheduleQuarterlyTaxReminders "T1" "R1" ⟨2025, 2, 1⟩
    ∧ q1Reminder.dueDate.day = 15
    ∧ q1Reminder.scheduledFor = ⟨2025, 3, 8⟩ :=
  ⟨by decide,
   (c5_quarterly_reminders.1 "T1" "R1" ⟨2025, 2, 1⟩ q1Reminder (by decide)).2.1,
   (c5_quarterly_reminders.1 "T1" "R1" ⟨2025, 2, 1⟩ q1Reminder (by decide)).2.2.1⟩

/-- Stability of the deadline sort: filtering the sorted output to any fixed
`daysUntilDue` key yields exactly the same-key entries of the input in their
original order. -/
theorem filter_key_insertionSort (l : List DeadlineEntry) (n : Nat) :
    (List.insertionSort entryLE l).filter (fun e => e.daysUntilDue == n)
      = l.filter (fun e => e.daysUntilDue == n) := by
  have hkey : ∀ a ∈ l.filter (fun e => e.daysUntilDue == n), a.daysUntilDue = n := by
    intro a ha
    simpa using (List.mem_filter.mp ha).2
  have hpair : (l.filter (fun e => e.daysUntilDue == n)).Pairwise entryLE := by
    refine List.pairwise_of_forall_mem_list ?_
    intro a ha b hb
    show a.daysUntilDue ≤ b.daysUntilDue
    rw [hkey a ha, hkey b hb]
  have hsub : (l.filter (fun e => e.daysUntilDue == n)).Sublist
      (List.insertionSort entryLE l) :=
    List.sublist_insertionSort hpair (List.filter_sublist l)
  have hself : (l.filter (fun e => e.daysUntilDue == n)).filter
      (fun e => e.daysUntilDue == n) = l.filter (fun e => e.daysUntilDue == n) :=
    List.filter_eq_self.mpr (fun a ha => (List.mem_filter.mp ha).2)
  have hsub2 : (l.filter (fun e => e.daysUntilDue == n)).Sublist
      ((List.insertionSort entryLE l).filter (fun e => e.daysUntilDue == n)) :=
    hself ▸ hsub.filter (fun e => e.daysUntilDue == n)
  have hlen : ((List.insertionSort entryLE l).filter (fun e => e.daysUntilDue == n)).length
      = (l.filter (fun e => e.daysUntilDue == n)).length :=
    ((List.perm_insertionSort entryLE l).filter (fun e => e.daysUntilDue == n)).length_eq
  exact (hsub2.eq_of_length hlen.symm).symm

/-- Claim C4: `getUpcomingDeadlines` returns exactly the records with a
non-null due date inside the inclusive window `[now, now + daysAhead days]`
whose status is neither completed nor skipped (a permutation of the filtered
input), each paired with `daysUntilDue = ceil((dueDate - now) / 1 day)`,
sorted ascending by `daysUntilDue` with ties kept in input order (the
filtered-by-key projection of the output equals that of the input). -/
theorem c4_upcoming_deadlines (records : List TrackingRecord) (now daysAhead : Nat) :
    (∀ e ∈ getUpcomingDeadlines records now daysAhead,
        e.compliance.status ≠ Status.completed
        ∧ e.compliance.status ≠ Status.skipped
        ∧ ∃ d, e.compliance.nextDueDate = some d
            ∧ now ≤ d ∧ d ≤ now + daysAhead * dayMs
            ∧ e.daysUntilDue = (d - now + (dayMs - 1)) / dayMs)
    ∧ (getUpcomingDeadlines records now daysAhead).Perm
        ((records.filter (deadlineCond now (now + daysAhead * dayMs))).map (mkEntry now))
    ∧ List.Sorted entryLE (getUpcomingDeadlines records now daysAhead)
    ∧ ∀ n : Nat,
        (getUpcomingDeadlines records now daysAhead).filter (fun e => e.daysUntilDue == n)
          = ((records.filter (deadlineCond now (now + daysAhead * dayMs))).map
              (mkEntry now)).filter (fun e => e.daysUntilDue == n) := by
  refine ⟨?_, List.perm_insertionSort _ _, List.sorted_insertionSort _ _,
    fun n => filter_key_insertionSort _ n⟩
  intro e he
  rw [getUpcomingDeadlines, List.mem_insertionSort] at he
  obtain ⟨r, hr, hre⟩ := List.mem_map.mp he
  obtain ⟨hrmem, hcond⟩ := List.mem_filter.mp hr
  subst hre
  unfold deadlineCond at hcond
  cases hnd : r.nextDueDate with
  | none =>
      rw [hnd] at hcond
      exact absurd hcond (by simp)
  | some d =>
      rw [hnd] at hcond
      simp only [Bool.and_eq_true, decide_eq_true_eq, Bool.not_eq_true',
        beq_eq_false_iff_ne] at hcond
      obtain ⟨⟨⟨h1, h2⟩, h3⟩, h4⟩ := hcond
      refine ⟨h3, h4, d, ?_, h1, h2, ?_⟩
      · exact hnd
      · show (r.nextDueDate.getD now - now + (dayMs - 1)) / dayMs
          = (d - now + (dayMs - 1)) / dayMs
        rw [hnd]
        rfl

/-- Claim C4 witness: the theorem applied to the single-record list whose
record is due two days out; it appears in the output with
`daysUntilDue = 2`. -/
theorem c4_witness :
    mkEntry 0 recDueSoon ∈ getUpcomingDeadlines [recDueSoon] 0 30
    ∧ (mkEntry 0 recDueSoon).compliance.status ≠ Status.completed
    ∧ (mkEntry 0 recDueSoon).daysUntilDue = 2 :=
  ⟨by decide,
   ((c4_upcoming_deadlines [recDueSoon] 0 30).1 (mkEntry 0 recDueSoon) (by decide)).1,
   by decide⟩

end Compliance
